import Mathlib

/-!
Shallow embedding of the simplex-based semantic interpolation engine of the
voronoi5 repository (frontend/src/semantic/: SemanticTessellation.js,
SemanticTriangle.js, embeddingService.js, TetrahedronVisualization.js).

Modelling conventions:
* JavaScript IEEE-754 doubles are modelled by `ℚ`.  Every claim settled here
  is robust to this choice: the counterexamples compare identical decimal
  literals (where double and rational comparison agree verdict for verdict),
  and the confirmed identities are exact algebraic facts of the formulas the
  code evaluates.
* `Math.sqrt` is not rational; the functions that call it take the square
  root as an explicit function parameter `sq : ℚ → ℚ`.  Concrete witnesses
  only ever apply `sq` at `0` and `1`, where `Math.sqrt` is exact, and are
  instantiated with a function agreeing with it there.
* JavaScript objects indexed by document id are modelled as association
  lists; `undefined` results of lookups and out-of-range indexing are
  modelled with `Option` / `List.getD`.  A truthiness test on a string
  (`doc.id`, `doc.title`) is modelled as a comparison with `""`.
-/

namespace Voronoi5

/-- A stored coordinate array (the JS code stores points as number arrays,
whose length it checks against 2). -/
abbrev Coord := List ℚ

/-- A 2D query point, as passed to `findContainingTriangle`/`analyzePoint`. -/
abbrev Pt2 := ℚ × ℚ

/-- Document record: id, title and high-dimensional embedding
(`DocumentRef` of the spec; the loosely-shaped JS documents carry at least
these fields on every path the claims exercise). -/
structure Doc where
  id : String
  title : String
  embedding : List ℚ
deriving DecidableEq, Repr

/-- `SemanticTriangle`: vertices, their embeddings
(`vertices.map(doc => doc.embedding)`) and the derived id string. -/
structure SemanticTriangle where
  vertices : List Doc
  embeddings : List (List ℚ)
  id : String
deriving DecidableEq, Repr

/-- The `SemanticTriangle` constructor: throws (here: `none`) when a document
or its id is missing, otherwise builds the vertex/embedding lists and id. -/
def mkTriangle (a b c : Doc) : Option SemanticTriangle :=
  if a.id = "" ∨ b.id = "" ∨ c.id = "" then none
  else some { vertices := [a, b, c],
              embeddings := [a.embedding, b.embedding, c.embedding],
              id := "triangle-" ++ a.id ++ "-" ++ b.id ++ "-" ++ c.id }

/-- `SemanticTriangle.calculateBarycentricCoordinates(point, vertices)`:
the two-equation solve with the `|denominator| < 0.0001` degenerate guard,
returning the literal `[0.33, 0.33, 0.34]` fallback of the source. -/
def calculateBarycentricCoordinates (point : Pt2) (vertices : List Coord) :
    List ℚ :=
  if vertices.length ≠ 3 then [33/100, 33/100, 34/100]
  else
    let v1 := vertices.getD 0 []
    let v2 := vertices.getD 1 []
    let v3 := vertices.getD 2 []
    let v1x := v1.getD 0 0
    let v1y := v1.getD 1 0
    let v2x := v2.getD 0 0
    let v2y := v2.getD 1 0
    let v3x := v3.getD 0 0
    let v3y := v3.getD 1 0
    let denominator := (v2y - v3y) * (v1x - v3x) + (v3x - v2x) * (v1y - v3y)
    if |denominator| < 1/10000 then [33/100, 33/100, 34/100]
    else
      let w1 := ((v2y - v3y) * (point.1 - v3x) + (v3x - v2x) * (point.2 - v3y))
                  / denominator
      let w2 := ((v3y - v1y) * (point.1 - v3x) + (v1x - v3x) * (point.2 - v3y))
                  / denominator
      [w1, w2, 1 - w1 - w2]

/-- `SemanticTriangle.isPointInside(point, vertices)`: all three barycentric
weights in `[0, 1]`. -/
def isPointInside (point : Pt2) (vertices : List Coord) : Bool :=
  let ws := calculateBarycentricCoordinates point vertices
  let w1 := ws.getD 0 0
  let w2 := ws.getD 1 0
  let w3 := ws.getD 2 0
  decide (0 ≤ w1 ∧ 0 ≤ w2 ∧ 0 ≤ w3 ∧ w1 ≤ 1 ∧ w2 ≤ 1 ∧ w3 ≤ 1)

/-- `Math.max(...ws)` on a (nonempty on every reachable call) list. -/
def maxOf : List ℚ → ℚ
  | [] => 0
  | x :: xs => xs.foldl max x

/-- `Math.min(...ws)` on a (nonempty on every reachable call) list. -/
def minOf : List ℚ → ℚ
  | [] => 0
  | x :: xs => xs.foldl min x

/-- `ws.indexOf x`: index of the first occurrence. -/
def idxOfFirst (l : List ℚ) (x : ℚ) : ℕ := l.findIdx (· = x)

/-- Insert a `(weight, index)` pair into a descending-sorted list, after all
entries of greater-or-equal weight (stability of `Array.prototype.sort`). -/
def insertByWeightDesc (x : ℚ × ℕ) : List (ℚ × ℕ) → List (ℚ × ℕ)
  | [] => [x]
  | y :: ys => if y.1 < x.1 then x :: y :: ys else y :: insertByWeightDesc x ys

/-- `.sort((a, b) => b.weight - a.weight)`: stable descending sort. -/
def sortByWeightDesc (l : List (ℚ × ℕ)) : List (ℚ × ℕ) :=
  l.foldl (fun acc x => insertByWeightDesc x acc) []

/-- The `{type, description, conceptual}` record returned by the classifier. -/
structure SetOperation where
  type : String
  description : String
  conceptual : String
deriving DecidableEq, Repr

/-- `doc.title || doc.id` (JS string truthiness). -/
def titleOf (d : Doc) : String := if d.title ≠ "" then d.title else d.id

/-- `SemanticTriangle.interpretAsSetOperations(weights)`: the top-down
classifier with thresholds `HIGH = 0.6`, `MEDIUM = 0.3`, `LOW = 0.1`. -/
def interpretAsSetOperations (t : SemanticTriangle) (weights : List ℚ) :
    SetOperation :=
  let HIGH : ℚ := 6/10
  let MEDIUM : ℚ := 3/10
  let LOW : ℚ := 1/10
  let titles := t.vertices.map titleOf
  if weights.all (fun w => LOW ≤ w ∧ w ≤ HIGH)
      ∧ maxOf weights - minOf weights < 3/10 then
    { type := "balanced_intersection",
      description := "Balanced intersection of all three documents: "
        ++ String.intercalate ", " titles,
      conceptual := "This point represents concepts that appear in all three documents with similar importance." }
  else
    let maxIndex := idxOfFirst weights (maxOf weights)
    if HIGH ≤ weights.getD maxIndex 0 then
      let otherIndices := (weights.enum.filterMap fun p =>
        if p.1 ≠ maxIndex ∧ LOW ≤ p.2 then some p.1 else none)
      if otherIndices = [] then
        { type := "single_document",
          description := "Primarily " ++ titles.getD maxIndex "" ++ " concepts",
          conceptual := "This point closely resembles a single document with minimal influence from others." }
      else
        { type := "dominant_with_influence",
          description := titles.getD maxIndex "" ++ " with influence from "
            ++ String.intercalate " and " (otherIndices.map (titles.getD · "")),
          conceptual := "This point represents a dominant document modified by specific features from others." }
    else
      let sortedIndices :=
        sortByWeightDesc (weights.enum.map fun p => (p.2, p.1))
      if MEDIUM ≤ (sortedIndices.getD 0 (0, 0)).1
          ∧ MEDIUM ≤ (sortedIndices.getD 1 (0, 0)).1
          ∧ (sortedIndices.getD 2 (0, 0)).1 < LOW then
        let i1 := (sortedIndices.getD 0 (0, 0)).2
        let i2 := (sortedIndices.getD 1 (0, 0)).2
        { type := "paired_intersection",
          description := "Intersection of " ++ titles.getD i1 ""
            ++ " and " ++ titles.getD i2 "",
          conceptual := "This point represents concepts shared between two documents with little influence from the third." }
      else
        { type := "complex_weighted_combination",
          description := "Complex combination of all documents",
          conceptual := "This point represents a nuanced mix of concepts from all three documents in varying degrees." }

/-- `Σ v1[i] * v2[i]` over the common index range. -/
def dotProduct (v1 v2 : List ℚ) : ℚ := ((v1.zip v2).map fun p => p.1 * p.2).sum

/-- `Σ v[i] * v[i]` (the `normA` / `normB` accumulators of the source). -/
def sumSquares (v : List ℚ) : ℚ := (v.map fun x => x * x).sum

/-- `embeddingService.calculateSimilarity(vec1, vec2)`: guard on
missing/length-mismatched vectors and zero norms (returning 0), otherwise
the cosine shifted into `[0, 1]` by `(similarity + 1) / 2`.  `sq` stands for
`Math.sqrt`. -/
def calculateSimilarity (sq : ℚ → ℚ) (vec1 vec2 : List ℚ) : ℚ :=
  if vec1.length ≠ vec2.length then 0
  else
    let dot := dotProduct vec1 vec2
    let normA := sumSquares vec1
    let normB := sumSquares vec2
    if normA = 0 ∨ normB = 0 then 0
    else (dot / (sq normA * sq normB) + 1) / 2

/-- Modelled from the spec: the mathematical cosine similarity
`dot(v1,v2) / (‖v1‖ ‖v2‖)` that §4.4 names `cosineSimilarity`, written with
the same explicit square-root parameter as the source function it is
compared against. -/
def cosineSimilaritySpec (sq : ℚ → ℚ) (vec1 vec2 : List ℚ) : ℚ :=
  dotProduct vec1 vec2 / (sq (sumSquares vec1) * sq (sumSquares vec2))

/-- One entry of the `contributions` array. -/
structure Contribution where
  id : String
  title : String
  weight : ℚ
  similarity : ℚ
deriving DecidableEq, Repr

/-- The record returned by `getInteriorPointSemantics`. -/
structure SemanticsResult where
  contributions : List Contribution
  combinedEmbedding : List ℚ
  setOperation : SetOperation
deriving DecidableEq, Repr

/-- A fallback contribution entry:
`id: doc?.id || unknown-i`, `title: doc?.title || doc?.id || ...`. -/
def fallbackContribution (i : ℕ) (d : Doc) (w sim : ℚ) : Contribution :=
  { id := if d.id ≠ "" then d.id else "unknown-" ++ toString i,
    title := if d.title ≠ "" then d.title
             else if d.id ≠ "" then d.id else "Unknown Document " ++ toString i,
    weight := w,
    similarity := sim }

/-- `SemanticTriangle.getInteriorPointSemantics(weights)`: validation
fallbacks (invalid inputs, zero weight sum, inconsistent embedding
dimensions — each returning a fully shaped result with
`setOperation.type = "unknown"`), then the weighted embedding combination,
classification and per-vertex similarities. -/
def getInteriorPointSemantics (sq : ℚ → ℚ) (t : SemanticTriangle)
    (weights : List ℚ) : SemanticsResult :=
  if weights.length ≠ 3 ∨ t.embeddings.length ≠ 3 then
    { contributions :=
        t.vertices.enum.map fun p => fallbackContribution p.1 p.2 (1/3) (1/2),
      combinedEmbedding := [],
      setOperation :=
        { type := "unknown",
          description := "Could not determine semantic relationship",
          conceptual := "Analysis failed due to invalid data" } }
  else
    let sum := weights.foldl (· + ·) 0
    if |sum| < 1/10000 then
      { contributions :=
          t.vertices.enum.map fun p => fallbackContribution p.1 p.2 (1/3) (1/2),
        combinedEmbedding := [],
        setOperation :=
          { type := "unknown",
            description := "Could not determine semantic relationship",
            conceptual := "Analysis failed due to invalid weights" } }
    else
      let normalizedWeights := weights.map (· / sum)
      let embeddingLength := (t.embeddings.getD 0 []).length
      if embeddingLength = 0
          ∨ t.embeddings.any fun e => e.length != embeddingLength then
        { contributions :=
            t.vertices.enum.map fun p =>
              fallbackContribution p.1 p.2 (normalizedWeights.getD p.1 0) (1/2),
          combinedEmbedding := [],
          setOperation :=
            { type := "unknown",
              description := "Could not determine semantic relationship",
              conceptual := "Analysis failed due to inconsistent embedding dimensions" } }
      else
        let combinedEmbedding := (List.range embeddingLength).map fun j =>
          (normalizedWeights.zip t.embeddings).foldl
            (fun acc p => acc + p.1 * p.2.getD j 0) 0
        let setOperation := interpretAsSetOperations t normalizedWeights
        let similarities := t.embeddings.map fun e =>
          calculateSimilarity sq combinedEmbedding e
        { contributions :=
            t.vertices.enum.map fun p =>
              { id := if p.2.id ≠ "" then p.2.id else "unknown-" ++ toString p.1,
                title := if p.2.title ≠ "" then p.2.title
                         else if p.2.id ≠ "" then p.2.id
                         else "Unknown Document " ++ toString p.1,
                weight := normalizedWeights.getD p.1 0,
                similarity := similarities.getD p.1 0 },
          combinedEmbedding := combinedEmbedding,
          setOperation := setOperation }

/-! ## 3D path (TetrahedronVisualization.js) -/

/-- A 3D point (`THREE.Vector3`). -/
abbrev Pt3 := ℚ × ℚ × ℚ

/-- `new THREE.Vector3().subVectors(a, b)`. -/
def sub3 (a b : Pt3) : Pt3 := (a.1 - b.1, a.2.1 - b.2.1, a.2.2 - b.2.2)

/-- `new THREE.Vector3().crossVectors(a, b)`. -/
def cross3 (a b : Pt3) : Pt3 :=
  (a.2.1 * b.2.2 - a.2.2 * b.2.1,
   a.2.2 * b.1 - a.1 * b.2.2,
   a.1 * b.2.1 - a.2.1 * b.1)

/-- `a.dot(b)`. -/
def dot3 (a b : Pt3) : ℚ := a.1 * b.1 + a.2.1 * b.2.1 + a.2.2 * b.2.2

/-- `crossVectors(a, b).dot(c)`: the scalar triple product. -/
def tripleProduct (a b c : Pt3) : ℚ := dot3 (cross3 a b) c

/-- The signed volume `cross(v1-v0, v2-v0).dot(v3-v0) / 6` that the source
computes (its local `volume`); zero exactly when the tetrahedron is
degenerate. -/
def tetraVolume (v0 v1 v2 v3 : Pt3) : ℚ :=
  tripleProduct (sub3 v1 v0) (sub3 v2 v0) (sub3 v3 v0) / 6

/-- `calculateBarycentricCoordinates3D(point, vertices)`: absolute
sub-tetrahedron volumes normalized by their sum.  The source has no
degeneracy guard here; a zero `totalVolume` divides by zero (`NaN` in JS,
`0` in this `ℚ` model — the claims settled through this definition never
rely on the numeric value of that case). -/
def calculateBarycentricCoordinates3D (point : Pt3) (vertices : List Pt3) :
    List ℚ :=
  if vertices.length ≠ 4 then [0, 0, 0, 0]
  else
    let vtx0 := vertices.getD 0 (0, 0, 0)
    let vtx1 := vertices.getD 1 (0, 0, 0)
    let vtx2 := vertices.getD 2 (0, 0, 0)
    let vtx3 := vertices.getD 3 (0, 0, 0)
    let volume0 :=
      |tripleProduct (sub3 point vtx1) (sub3 point vtx2) (sub3 point vtx3)| / 6
    let volume1 :=
      |tripleProduct (sub3 vtx0 point) (sub3 vtx2 point) (sub3 vtx3 point)| / 6
    let volume2 :=
      |tripleProduct (sub3 vtx0 point) (sub3 vtx1 point) (sub3 vtx3 point)| / 6
    let volume3 :=
      |tripleProduct (sub3 vtx0 point) (sub3 vtx1 point) (sub3 vtx2 point)| / 6
    let totalVolume := volume0 + volume1 + volume2 + volume3
    [volume0 / totalVolume, volume1 / totalVolume,
     volume2 / totalVolume, volume3 / totalVolume]

/-! ## Tessellation (SemanticTessellation.js) -/

/-- The `d3-delaunay` object as far as the repository reads it: the input
point array and the flat `triangles` index array.  `d3-delaunay` is an
external npm dependency whose source is not in the repository; it is
modelled from its documented interface. -/
structure DelaunayObj where
  points : List Coord
  triangles : List ℕ
deriving DecidableEq, Repr

/-- Modelled from the spec of the external `d3-delaunay` library:
`delaunay.find(x, y)` returns the index of the **input point** closest to
the query point (`-1` only when there are no points); ties go to the first
index.  Note this is a point index, not a triangle index. -/
def DelaunayObj.find (d : DelaunayObj) (x y : ℚ) : Int :=
  let dist := fun (c : Coord) => (x - c.getD 0 0) ^ 2 + (y - c.getD 1 0) ^ 2
  match d.points with
  | [] => -1
  | p0 :: rest =>
    ((rest.enum.foldl (fun acc q =>
        if dist q.2 < acc.2 then ((q.1 + 1 : ℕ), dist q.2) else acc)
      ((0 : ℕ), dist p0)).1 : ℕ)

/-- The `SemanticTessellation` state.  The JS constructor never defines a
`reason` property and `buildTriangulation` never assigns one; the field is
carried here as an `Option` that no modelled code path sets, so the absence
of the diagnostic can be stated.  The write-only `pointToDocumentMap` and
the unused `voronoi` field are omitted (no modelled operation reads them). -/
structure Tessellation where
  documents : List Doc
  coordinates : Option (List (String × Coord))
  triangles : List SemanticTriangle
  delaunay : Option DelaunayObj
  initialized : Bool
  useManualTriangulation : Bool
  reason : Option String
deriving Repr

/-- The `SemanticTessellation(documents, coordinates)` constructor. -/
def mkTessellation (documents : List Doc)
    (coordinates : Option (List (String × Coord))) : Tessellation :=
  { documents := documents, coordinates := coordinates, triangles := [],
    delaunay := none, initialized := false,
    useManualTriangulation := false, reason := none }

/-- `this.coordinates[id]` (JS object property lookup). -/
def lookupCoord (coords : List (String × Coord)) (id : String) : Option Coord :=
  (coords.find? fun p => p.1 == id).map (·.2)

/-- Consecutive index triples of the flat Delaunay `triangles` array (the
`i += 3` loop; a trailing partial chunk reads `undefined` documents and is
skipped by the guard, as dropping it here). -/
def chunk3 : List ℕ → List (ℕ × ℕ × ℕ)
  | a :: b :: c :: rest => (a, b, c) :: chunk3 rest
  | _ => []

/-- The triangle-extraction loop of the Delaunay branch: skip any triple
whose documents are missing or lack ids, otherwise construct the
`SemanticTriangle`. -/
def buildTrianglesFromDelaunay (docs : List Doc) (idxs : List ℕ) :
    List SemanticTriangle :=
  (chunk3 idxs).filterMap fun trip =>
    match docs[trip.1]?, docs[trip.2.1]?, docs[trip.2.2]? with
    | some dA, some dB, some dC =>
      if dA.id ≠ "" ∧ dB.id ≠ "" ∧ dC.id ≠ "" then mkTriangle dA dB dC
      else none
    | _, _, _ => none

/-- `SemanticTessellation.buildTriangulation()`.  `delaunayFrom` stands for
the external `Delaunay.from(points)` constructor of `d3-delaunay`.  All
failure paths set `initialized := false` and return the object (the JS
`try/catch` turns the only throwing path, the manual `SemanticTriangle`
constructor, into the same soft failure); no path assigns a `reason`. -/
def buildTriangulation (delaunayFrom : List Coord → DelaunayObj)
    (self : Tessellation) : Tessellation :=
  match self.coordinates with
  | none => { self with initialized := false }
  | some coords =>
    if self.documents.length < 3 then { self with initialized := false }
    else
      let validDocuments := self.documents.filter fun d =>
        d.id != "" && (lookupCoord coords d.id).isSome
      if validDocuments.length < 3 then { self with initialized := false }
      else
        let points := validDocuments.filterMap fun d =>
          match lookupCoord coords d.id with
          | some p => if p.length = 2 then some p else none
          | none => none
        if points.length < 3 then
          { self with documents := validDocuments, initialized := false }
        else
          if validDocuments.length ≤ 3 then
            match validDocuments with
            | d0 :: d1 :: d2 :: _ =>
              match mkTriangle d0 d1 d2 with
              | some tri =>
                { self with
                    documents := validDocuments,
                    triangles := [tri],
                    useManualTriangulation := true,
                    initialized := true }
              | none =>
                { self with
                    documents := validDocuments,
                    useManualTriangulation := true,
                    initialized := false }
            | _ =>
              { self with documents := validDocuments, initialized := false }
          else
            let del := delaunayFrom points
            let tris := buildTrianglesFromDelaunay validDocuments del.triangles
            { self with
                documents := validDocuments,
                delaunay := some del,
                triangles := tris,
                useManualTriangulation := false,
                initialized := tris.length ≠ 0 }

/-- `SemanticTessellation.findContainingTriangle(point)`.  In the manual
(3-document) branch the source checks the single triangle, then requires
`this.delaunay` to be present to proceed (its `if (this.delaunay)` body is
empty and execution falls through to the Delaunay lookup; the `else` branch
returns `null`).  The Delaunay lookup treats the result of `find` as a
triangle index and resolves its three `triangles`-array entries back to
documents. -/
def findContainingTriangle (self : Tessellation) (point : Pt2) :
    Option SemanticTriangle :=
  if self.initialized = false then none
  else
    let coords := self.coordinates.getD []
    let manualAbort : Bool :=
      if self.useManualTriangulation then
        match self.triangles.head? with
        | none => true
        | some tri =>
          let vertices := tri.vertices.filterMap fun d => lookupCoord coords d.id
          if vertices.length ≠ 3 then true
          else if self.delaunay.isSome then false
          else true
      else false
    if manualAbort then none
    else
      match self.delaunay with
      | none => none
      | some del =>
        let triangleIndex := del.find point.1 point.2
        if triangleIndex = -1 then none
        else
          let base := triangleIndex.toNat * 3
          let docIndices : List (Option ℕ) :=
            [del.triangles[base]?, del.triangles[base + 1]?,
             del.triangles[base + 2]?]
          self.triangles.find? fun tri =>
            docIndices.all fun oidx =>
              match oidx with
              | none => false
              | some idx =>
                match self.documents[idx]? with
                | none => false
                | some doc =>
                  doc.id != "" &&
                    tri.vertices.any fun td => td.id != "" && td.id == doc.id

/-- The `{triangle, weights, semantics, point}` record of `analyzePoint`. -/
structure Analysis where
  triangle : SemanticTriangle
  weights : List ℚ
  semantics : SemanticsResult
  point : Pt2
deriving Repr

/-- `SemanticTessellation.analyzePoint(point)`: guard on a missing point or
uninitialized state, locate, re-derive the vertex coordinates, compute
weights (re-checking their shape), and assemble the analysis record.  The
whole body is wrapped in `try/catch` in the source; every branch here is a
defined value, so the catch arm is unreachable in the model. -/
def analyzePoint (sq : ℚ → ℚ) (self : Tessellation) (point : Option Pt2) :
    Option Analysis :=
  match point with
  | none => none
  | some p =>
    if self.initialized = false then none
    else
      match findContainingTriangle self p with
      | none => none
      | some tri =>
        let coords := self.coordinates.getD []
        let vertices := tri.vertices.filterMap fun d => lookupCoord coords d.id
        if vertices.length ≠ 3 then none
        else
          let weights := calculateBarycentricCoordinates p vertices
          if weights.length ≠ 3 then none
          else
            some
              { triangle := tri,
                weights := weights,
                semantics := getInteriorPointSemantics sq tri weights,
                point := p }

/-! ## Concrete instances used by witnesses and counterexamples -/

/-- A document with a 2-dimensional embedding. -/
def docA : Doc := { id := "a", title := "A", embedding := [1, 0] }

/-- A document with a 2-dimensional embedding. -/
def docB : Doc := { id := "b", title := "B", embedding := [0, 1] }

/-- A document with a 2-dimensional embedding. -/
def docC : Doc := { id := "c", title := "C", embedding := [1, 1] }

/-- A fourth document, for the multi-triangle tessellation. -/
def docD : Doc := { id := "d", title := "D", embedding := [1, 2] }

/-- A document whose embedding length (1) differs from the others (2). -/
def docCshort : Doc := { id := "c", title := "C", embedding := [1] }

/-- The triangle over `docA`, `docB`, `docC`, built by the constructor. -/
def triangleABC : SemanticTriangle :=
  (mkTriangle docA docB docC).getD { vertices := [], embeddings := [], id := "" }

/-- A triangle whose third vertex embedding has a mismatched length. -/
def triangleMismatch : SemanticTriangle :=
  (mkTriangle docA docB docCshort).getD
    { vertices := [], embeddings := [], id := "" }

/-- Coordinates for the 3-document (manual triangulation) tessellation. -/
def coordsABC : List (String × Coord) :=
  [("a", [0, 0]), ("b", [10, 0]), ("c", [0, 10])]

/-- The 3-document tessellation after `buildTriangulation()`.  The manual
branch never calls `Delaunay.from`, exactly as in the source, so the
library parameter is irrelevant here and a dummy is passed. -/
def tessManual : Tessellation :=
  buildTriangulation (fun _ => { points := [], triangles := [] })
    (mkTessellation [docA, docB, docC] (some coordsABC))

/-- Coordinates of four documents at the corners of a square. -/
def coordsSquare : List (String × Coord) :=
  [("a", [0, 0]), ("b", [10, 0]), ("c", [10, 10]), ("d", [0, 10])]

/-- `Delaunay.from` for the square above, modelled from the d3-delaunay
documentation: the four corners triangulate into the two triangles
`(0, 1, 2)` and `(0, 2, 3)` recorded in the flat `triangles` index array.
(The claims settled against this instance need only that some reachable
Delaunay output has this shape.) -/
def delaunayFromSquare : List Coord → DelaunayObj :=
  fun pts => { points := pts, triangles := [0, 1, 2, 0, 2, 3] }

/-- The 4-document tessellation after `buildTriangulation()`. -/
def tessSquare : Tessellation :=
  buildTriangulation delaunayFromSquare
    (mkTessellation [docA, docB, docC, docD] (some coordsSquare))

/-- The 2-document tessellation input (below the 3-document minimum). -/
def tessTwoDocs : Tessellation :=
  buildTriangulation (fun _ => { points := [], triangles := [] })
    (mkTessellation [docA, docB] (some [("a", [0, 0]), ("b", [1, 0])]))

/-! ## C1 -/

/-- **C1** (code bug, failing input): in the 3-document single-triangle
fast path, `buildTriangulation` leaves `this.delaunay` unset, and the
manual branch of `findContainingTriangle` then returns `null`
unconditionally — even for the point `(2, 2)`, all of whose barycentric
weights (`[3/5, 1/5, 1/5]`) lie in `[0, 1]` and which `isPointInside`
accepts.  The claim says the triangle is returned exactly when all three
weights lie in `[0, 1]`. -/
theorem c1_manual_locate_always_null :
    tessManual.initialized = true
      ∧ tessManual.useManualTriangulation = true
      ∧ tessManual.delaunay = none
      ∧ calculateBarycentricCoordinates (2, 2) [[0, 0], [10, 0], [0, 10]]
          = [3/5, 1/5, 1/5]
      ∧ isPointInside (2, 2) [[0, 0], [10, 0], [0, 10]] = true
      ∧ findContainingTriangle tessManual (2, 2) = none := by
  refine ⟨rfl, rfl, rfl, ?_, ?_, rfl⟩
  · norm_num [calculateBarycentricCoordinates]
  · norm_num [isPointInside, calculateBarycentricCoordinates]

/-! ## C2 -/

/-- **C2** (counterexample): for the degenerate (collinear) triangle
`(0,0), (1,1), (2,2)` and query point `(5, 5)`, the 2D computation returns
the literal `[0.33, 0.33, 0.34]` — not the equal-weight fallback
`[1/3, 1/3, 1/3]` the claim states (and no `degenerate` flag exists in the
returned value, which is a bare weight list). -/
theorem c2_degenerate_fallback_is_not_equal_weights :
    calculateBarycentricCoordinates (5, 5) [[0, 0], [1, 1], [2, 2]]
        = [33/100, 33/100, 34/100]
      ∧ calculateBarycentricCoordinates (5, 5) [[0, 0], [1, 1], [2, 2]]
          ≠ [1/3, 1/3, 1/3] := by
  constructor
  · norm_num [calculateBarycentricCoordinates]
  · norm_num [calculateBarycentricCoordinates]

/-- **C2** (amended): for every 2D triangle the source considers degenerate
(`|denominator| < 1e-4`) and every query point, the barycentric computation
never raises and returns the fixed fallback `[0.33, 0.33, 0.34]` (which
sums to 1 but is not the equal-weight `1/(k+1)` vector), with no
`degenerate` flag; the 3D path has no analogous fallback at all. -/
theorem c2_amended_degenerate_returns_033_033_034
    (v1x v1y v2x v2y v3x v3y px py : ℚ)
    (h : |(v2y - v3y) * (v1x - v3x) + (v3x - v2x) * (v1y - v3y)| < 1/10000) :
    calculateBarycentricCoordinates (px, py)
        [[v1x, v1y], [v2x, v2y], [v3x, v3y]] = [33/100, 33/100, 34/100] := by
  simp only [calculateBarycentricCoordinates, List.length_cons,
    List.length_nil, List.getD, List.get?, List.getD_cons_zero,
    List.getD_cons_succ]
  norm_num
  intro hcon
  exact absurd h (not_lt.mpr hcon)

/-- **C2** witness: the amended theorem applied to the collinear triangle
`(0,0), (1,1), (2,2)` at query point `(5, 5)`. -/
theorem c2_amended_witness :
    calculateBarycentricCoordinates (5, 5) [[0, 0], [1, 1], [2, 2]]
      = [33/100, 33/100, 34/100] :=
  c2_amended_degenerate_returns_033_033_034 0 0 1 1 2 2 5 5 (by norm_num)

/-! ## C3 -/

/-- **C3** (counterexample): `classify([0.45, 0.45, 0.1])` is not
`paired_intersection`: the paired rule demands the third weight strictly
below `LOW = 0.1`, and `0.1 < 0.1` fails. -/
theorem c3_not_paired_intersection :
    (interpretAsSetOperations triangleABC [45/100, 45/100, 1/10]).type
      ≠ "paired_intersection" := by
  norm_num [interpretAsSetOperations, maxOf, minOf, idxOfFirst,
    sortByWeightDesc, insertByWeightDesc, titleOf, triangleABC, mkTriangle,
    docA, docB, docC, List.enum, List.enumFrom, List.getD,
    List.findIdx_cons, List.getElem?_cons_zero, List.getElem?_cons_succ]
  decide

/-- **C3** (amended): `classify([0.45, 0.45, 0.1])` falls through every
specific rule (the balanced rule fails on `max - min = 0.35 ≥ 0.3`, the
dominant rules on `0.45 < HIGH`, the paired rule on `0.1 < 0.1` being
false) and returns the default `complex_weighted_combination`, for any
triangle. -/
theorem c3_amended_complex_weighted_combination (t : SemanticTriangle) :
    (interpretAsSetOperations t [45/100, 45/100, 1/10]).type
      = "complex_weighted_combination" := by
  norm_num [interpretAsSetOperations, maxOf, minOf, idxOfFirst,
    sortByWeightDesc, insertByWeightDesc, titleOf,
    List.enum, List.enumFrom, List.getD,
    List.findIdx_cons, List.getElem?_cons_zero, List.getElem?_cons_succ]

/-! ## Helper lemmas for the 3D volume-ratio algebra -/

/-- The determinant `6 · volume` of the whole tetrahedron (the scalar triple
product the source computes from the edge vectors at `v0`). -/
def detD (v0 v1 v2 v3 : Pt3) : ℚ :=
  tripleProduct (sub3 v1 v0) (sub3 v2 v0) (sub3 v3 v0)

theorem tetraVolume_eq_detD_div (v0 v1 v2 v3 : Pt3) :
    tetraVolume v0 v1 v2 v3 = detD v0 v1 v2 v3 / 6 := rfl

/-- The four substituted determinants of the volume-ratio formula combine
linearly into the total determinant. -/
theorem tripleProduct_sub_combination (v0 v1 v2 v3 p : Pt3) :
    -tripleProduct (sub3 p v1) (sub3 p v2) (sub3 p v3)
      - tripleProduct (sub3 v0 p) (sub3 v2 p) (sub3 v3 p)
      + tripleProduct (sub3 v0 p) (sub3 v1 p) (sub3 v3 p)
      - tripleProduct (sub3 v0 p) (sub3 v1 p) (sub3 v2 p)
    = detD v0 v1 v2 v3 := by
  obtain ⟨x0, y0, z0⟩ := v0
  obtain ⟨x1, y1, z1⟩ := v1
  obtain ⟨x2, y2, z2⟩ := v2
  obtain ⟨x3, y3, z3⟩ := v3
  obtain ⟨px, py, pz⟩ := p
  simp only [detD, tripleProduct, cross3, dot3, sub3]
  ring

theorem detD_at_v0 (v0 v1 v2 v3 : Pt3) :
    tripleProduct (sub3 v0 v1) (sub3 v0 v2) (sub3 v0 v3)
      = -detD v0 v1 v2 v3 := by
  obtain ⟨x0, y0, z0⟩ := v0
  obtain ⟨x1, y1, z1⟩ := v1
  obtain ⟨x2, y2, z2⟩ := v2
  obtain ⟨x3, y3, z3⟩ := v3
  simp only [detD, tripleProduct, cross3, dot3, sub3]
  ring

theorem detD_at_v1 (v0 v1 v2 v3 : Pt3) :
    tripleProduct (sub3 v0 v1) (sub3 v2 v1) (sub3 v3 v1)
      = -detD v0 v1 v2 v3 := by
  obtain ⟨x0, y0, z0⟩ := v0
  obtain ⟨x1, y1, z1⟩ := v1
  obtain ⟨x2, y2, z2⟩ := v2
  obtain ⟨x3, y3, z3⟩ := v3
  simp only [detD, tripleProduct, cross3, dot3, sub3]
  ring

theorem detD_at_v2 (v0 v1 v2 v3 : Pt3) :
    tripleProduct (sub3 v0 v2) (sub3 v1 v2) (sub3 v3 v2)
      = detD v0 v1 v2 v3 := by
  obtain ⟨x0, y0, z0⟩ := v0
  obtain ⟨x1, y1, z1⟩ := v1
  obtain ⟨x2, y2, z2⟩ := v2
  obtain ⟨x3, y3, z3⟩ := v3
  simp only [detD, tripleProduct, cross3, dot3, sub3]
  ring

theorem detD_at_v3 (v0 v1 v2 v3 : Pt3) :
    tripleProduct (sub3 v0 v3) (sub3 v1 v3) (sub3 v2 v3)
      = -detD v0 v1 v2 v3 := by
  obtain ⟨x0, y0, z0⟩ := v0
  obtain ⟨x1, y1, z1⟩ := v1
  obtain ⟨x2, y2, z2⟩ := v2
  obtain ⟨x3, y3, z3⟩ := v3
  simp only [detD, tripleProduct, cross3, dot3, sub3]
  ring

theorem tripleProduct_sub_self_left (a b c : Pt3) :
    tripleProduct (sub3 a a) b c = 0 := by
  obtain ⟨x0, y0, z0⟩ := a
  obtain ⟨x1, y1, z1⟩ := b
  obtain ⟨x2, y2, z2⟩ := c
  simp only [tripleProduct, cross3, dot3, sub3]
  ring

theorem tripleProduct_sub_self_mid (a b c : Pt3) :
    tripleProduct b (sub3 a a) c = 0 := by
  obtain ⟨x0, y0, z0⟩ := a
  obtain ⟨x1, y1, z1⟩ := b
  obtain ⟨x2, y2, z2⟩ := c
  simp only [tripleProduct, cross3, dot3, sub3]
  ring

theorem tripleProduct_sub_self_right (a b c : Pt3) :
    tripleProduct b c (sub3 a a) = 0 := by
  obtain ⟨x0, y0, z0⟩ := a
  obtain ⟨x1, y1, z1⟩ := b
  obtain ⟨x2, y2, z2⟩ := c
  simp only [tripleProduct, cross3, dot3, sub3]
  ring

/-- For a non-degenerate tetrahedron the sum of the four absolute
sub-volumes is nonzero at every query point. -/
theorem subvolume_sum_ne_zero (v0 v1 v2 v3 p : Pt3)
    (h : tetraVolume v0 v1 v2 v3 ≠ 0) :
    |tripleProduct (sub3 p v1) (sub3 p v2) (sub3 p v3)| / 6
      + |tripleProduct (sub3 v0 p) (sub3 v2 p) (sub3 v3 p)| / 6
      + |tripleProduct (sub3 v0 p) (sub3 v1 p) (sub3 v3 p)| / 6
      + |tripleProduct (sub3 v0 p) (sub3 v1 p) (sub3 v2 p)| / 6 ≠ 0 := by
  have hD : detD v0 v1 v2 v3 ≠ 0 := by
    intro h0
    exact h (by rw [tetraVolume_eq_detD_div, h0, zero_div])
  intro hT
  apply hD
  rw [← tripleProduct_sub_combination v0 v1 v2 v3 p]
  have h0 := abs_nonneg (tripleProduct (sub3 p v1) (sub3 p v2) (sub3 p v3))
  have h1 := abs_nonneg (tripleProduct (sub3 v0 p) (sub3 v2 p) (sub3 v3 p))
  have h2 := abs_nonneg (tripleProduct (sub3 v0 p) (sub3 v1 p) (sub3 v3 p))
  have h3 := abs_nonneg (tripleProduct (sub3 v0 p) (sub3 v1 p) (sub3 v2 p))
  have e0 : |tripleProduct (sub3 p v1) (sub3 p v2) (sub3 p v3)| = 0 := by
    nlinarith
  have e1 : |tripleProduct (sub3 v0 p) (sub3 v2 p) (sub3 v3 p)| = 0 := by
    nlinarith
  have e2 : |tripleProduct (sub3 v0 p) (sub3 v1 p) (sub3 v3 p)| = 0 := by
    nlinarith
  have e3 : |tripleProduct (sub3 v0 p) (sub3 v1 p) (sub3 v2 p)| = 0 := by
    nlinarith
  rw [abs_eq_zero] at e0 e1 e2 e3
  rw [e0, e1, e2, e3]
  ring

/-! ## C4 -/

/-- **C4** (confirmed): for every non-degenerate simplex — 2D: the
denominator passes the source degeneracy test (`|denominator| ≥ 1e-4`);
3D: nonzero signed volume — and every query point, interior or exterior,
the returned barycentric weights sum to exactly 1 (hence within 1e-6). -/
theorem c4_weights_sum_to_one :
    (∀ v1x v1y v2x v2y v3x v3y px py : ℚ,
        1/10000 ≤ |(v2y - v3y) * (v1x - v3x) + (v3x - v2x) * (v1y - v3y)| →
        (calculateBarycentricCoordinates (px, py)
            [[v1x, v1y], [v2x, v2y], [v3x, v3y]]).sum = 1)
    ∧ (∀ v0 v1 v2 v3 p : Pt3, tetraVolume v0 v1 v2 v3 ≠ 0 →
        (calculateBarycentricCoordinates3D p [v0, v1, v2, v3]).sum = 1) := by
  constructor
  · intro v1x v1y v2x v2y v3x v3y px py h
    simp only [calculateBarycentricCoordinates, List.getD_cons_zero,
      List.getD_cons_succ]
    rw [if_neg (by simp), if_neg (not_lt.mpr h)]
    simp only [List.sum_cons, List.sum_nil]
    ring
  · intro v0 v1 v2 v3 p h
    have hT := subvolume_sum_ne_zero v0 v1 v2 v3 p h
    simp only [calculateBarycentricCoordinates3D, List.getD_cons_zero,
      List.getD_cons_succ]
    rw [if_neg (by simp)]
    simp only [List.sum_cons, List.sum_nil, add_zero]
    have hS : |tripleProduct (sub3 p v1) (sub3 p v2) (sub3 p v3)|
        + |tripleProduct (sub3 v0 p) (sub3 v2 p) (sub3 v3 p)|
        + |tripleProduct (sub3 v0 p) (sub3 v1 p) (sub3 v3 p)|
        + |tripleProduct (sub3 v0 p) (sub3 v1 p) (sub3 v2 p)| ≠ 0 := by
      intro h0
      apply hT
      rw [div_add_div_same, div_add_div_same, div_add_div_same, h0, zero_div]
    field_simp
    ring

/-- **C4** witness: the 2D sum at the triangle `(0,0), (10,0), (0,10)`
(denominator 100) with query point `(7, 3)`, and the 3D sum at the unit
tetrahedron (volume `1/6`) with exterior query point `(7, 3, 2)`. -/
theorem c4_weights_sum_to_one_witness :
    (calculateBarycentricCoordinates (7, 3) [[0, 0], [10, 0], [0, 10]]).sum = 1
      ∧ (calculateBarycentricCoordinates3D (7, 3, 2)
          [(0, 0, 0), (1, 0, 0), (0, 1, 0), (0, 0, 1)]).sum = 1 :=
  ⟨c4_weights_sum_to_one.1 0 0 10 0 0 10 7 3 (by norm_num),
   c4_weights_sum_to_one.2 (0, 0, 0) (1, 0, 0) (0, 1, 0) (0, 0, 1) (7, 3, 2)
     (by norm_num [tetraVolume, tripleProduct, cross3, dot3, sub3])⟩

/-! ## C9 -/

/-- **C9** (confirmed): for every non-degenerate simplex, evaluating the
barycentric computation at the own coordinate of a vertex yields weight 1 there
and 0 everywhere else — for the 2D two-equation solve and for the 3D
volume-ratio formula alike. -/
theorem c9_vertex_weights :
    (∀ v1x v1y v2x v2y v3x v3y : ℚ,
        1/10000 ≤ |(v2y - v3y) * (v1x - v3x) + (v3x - v2x) * (v1y - v3y)| →
        calculateBarycentricCoordinates (v1x, v1y)
            [[v1x, v1y], [v2x, v2y], [v3x, v3y]] = [1, 0, 0]
          ∧ calculateBarycentricCoordinates (v2x, v2y)
              [[v1x, v1y], [v2x, v2y], [v3x, v3y]] = [0, 1, 0]
          ∧ calculateBarycentricCoordinates (v3x, v3y)
              [[v1x, v1y], [v2x, v2y], [v3x, v3y]] = [0, 0, 1])
    ∧ (∀ v0 v1 v2 v3 : Pt3, tetraVolume v0 v1 v2 v3 ≠ 0 →
        calculateBarycentricCoordinates3D v0 [v0, v1, v2, v3] = [1, 0, 0, 0]
          ∧ calculateBarycentricCoordinates3D v1 [v0, v1, v2, v3] = [0, 1, 0, 0]
          ∧ calculateBarycentricCoordinates3D v2 [v0, v1, v2, v3] = [0, 0, 1, 0]
          ∧ calculateBarycentricCoordinates3D v3 [v0, v1, v2, v3]
              = [0, 0, 0, 1]) := by
  constructor
  · intro v1x v1y v2x v2y v3x v3y h
    have hd : (v2y - v3y) * (v1x - v3x) + (v3x - v2x) * (v1y - v3y) ≠ 0 :=
      abs_pos.mp (lt_of_lt_of_le (by norm_num) h)
    refine ⟨?_, ?_, ?_⟩ <;>
      · simp only [calculateBarycentricCoordinates, List.getD_cons_zero,
          List.getD_cons_succ]
        rw [if_neg (by simp), if_neg (not_lt.mpr h)]
        simp only [List.cons.injEq, and_true]
        refine ⟨?_, ?_, ?_⟩ <;> field_simp <;> ring
  · intro v0 v1 v2 v3 h
    have hD : detD v0 v1 v2 v3 ≠ 0 := fun h0 =>
      h (by rw [tetraVolume_eq_detD_div, h0, zero_div])
    have hX : |detD v0 v1 v2 v3| / 6 ≠ 0 :=
      div_ne_zero (abs_ne_zero.mpr hD) (by norm_num)
    refine ⟨?_, ?_, ?_, ?_⟩
    · simp only [calculateBarycentricCoordinates3D, List.getD_cons_zero,
        List.getD_cons_succ]
      rw [if_neg (by simp)]
      simp only [tripleProduct_sub_self_left, tripleProduct_sub_self_mid,
        tripleProduct_sub_self_right, abs_zero, zero_div, add_zero, zero_add]
      rw [detD_at_v0, abs_neg]
      simp [div_self hX]
    · simp only [calculateBarycentricCoordinates3D, List.getD_cons_zero,
        List.getD_cons_succ]
      rw [if_neg (by simp)]
      simp only [tripleProduct_sub_self_left, tripleProduct_sub_self_mid,
        tripleProduct_sub_self_right, abs_zero, zero_div, add_zero, zero_add]
      rw [detD_at_v1, abs_neg]
      simp [div_self hX]
    · simp only [calculateBarycentricCoordinates3D, List.getD_cons_zero,
        List.getD_cons_succ]
      rw [if_neg (by simp)]
      simp only [tripleProduct_sub_self_left, tripleProduct_sub_self_mid,
        tripleProduct_sub_self_right, abs_zero, zero_div, add_zero, zero_add]
      rw [detD_at_v2]
      simp [div_self hX]
    · simp only [calculateBarycentricCoordinates3D, List.getD_cons_zero,
        List.getD_cons_succ]
      rw [if_neg (by simp)]
      simp only [tripleProduct_sub_self_left, tripleProduct_sub_self_mid,
        tripleProduct_sub_self_right, abs_zero, zero_div, add_zero, zero_add]
      rw [detD_at_v3, abs_neg]
      simp [div_self hX]

/-- **C9** witness: the triangle `(0,0), (10,0), (0,10)` and the unit
tetrahedron, evaluated at their own vertices. -/
theorem c9_vertex_weights_witness :
    calculateBarycentricCoordinates (0, 0) [[0, 0], [10, 0], [0, 10]]
        = [1, 0, 0]
      ∧ calculateBarycentricCoordinates (10, 0) [[0, 0], [10, 0], [0, 10]]
          = [0, 1, 0]
      ∧ calculateBarycentricCoordinates3D (1, 0, 0)
          [(0, 0, 0), (1, 0, 0), (0, 1, 0), (0, 0, 1)] = [0, 1, 0, 0] :=
  ⟨(c9_vertex_weights.1 0 0 10 0 0 10 (by norm_num)).1,
   (c9_vertex_weights.1 0 0 10 0 0 10 (by norm_num)).2.1,
   (c9_vertex_weights.2 (0, 0, 0) (1, 0, 0) (0, 1, 0) (0, 0, 1)
     (by norm_num [tetraVolume, tripleProduct, cross3, dot3, sub3])).2.1⟩

/-- The second Delaunay triangle of the square tessellation. -/
def triangleACD : SemanticTriangle :=
  (mkTriangle docA docC docD).getD { vertices := [], embeddings := [], id := "" }

/-! ## C5 -/

/-- The Delaunay object the square tessellation carries. -/
def delSquare : DelaunayObj :=
  { points := [[0, 0], [10, 0], [10, 10], [0, 10]],
    triangles := [0, 1, 2, 0, 2, 3] }

theorem tessSquare_initialized : tessSquare.initialized = true := rfl

theorem tessSquare_manual : tessSquare.useManualTriangulation = false := rfl

theorem tessSquare_delaunay : tessSquare.delaunay = some delSquare := rfl

theorem tessSquare_triangles :
    tessSquare.triangles = [triangleABC, triangleACD] := rfl

theorem tessSquare_documents :
    tessSquare.documents = [docA, docB, docC, docD] := rfl

theorem triangleABC_verts :
    (triangleABC.vertices.filterMap fun d => lookupCoord coordsSquare d.id)
      = [[0, 0], [10, 0], [10, 10]] := rfl

theorem triangleACD_verts :
    (triangleACD.vertices.filterMap fun d => lookupCoord coordsSquare d.id)
      = [[0, 0], [10, 10], [0, 10]] := rfl

/-- `delaunay.find(-100, -100)` returns the nearest input point index: the
corner `(0, 0)` at index 0 (squared distance 20000, strictly least). -/
theorem delSquare_find : delSquare.find (-100) (-100) = 0 := by
  norm_num [delSquare, DelaunayObj.find, List.enum, List.enumFrom,
    List.getD]

/-- **C5** (code bug, failing input): in the multi-triangle path the source
passes the result of `delaunay.find` — the index of the nearest **input
point** — as a triangle index.  For the square tessellation and the query
point `(-100, -100)`, which lies strictly left of and below every vertex
(hence outside the convex hull, as witnessed by `isPointInside` failing on
both triangles), `find` returns point index 0, the code reads
`triangles[0..2] = (0, 1, 2)` and returns the triangle over documents
`a, b, c` instead of the `null` the claim requires. -/
theorem c5_exterior_point_gets_triangle :
    tessSquare.initialized = true
      ∧ tessSquare.useManualTriangulation = false
      ∧ tessSquare.triangles = [triangleABC, triangleACD]
      ∧ (coordsSquare.all fun p =>
          decide ((0:ℚ) ≤ p.2.getD 0 0 ∧ (0:ℚ) ≤ p.2.getD 1 0)) = true
      ∧ (tessSquare.triangles.all fun t =>
          ! isPointInside (-100, -100)
            (t.vertices.filterMap fun d => lookupCoord coordsSquare d.id)) = true
      ∧ findContainingTriangle tessSquare (-100, -100) = some triangleABC := by
  refine ⟨rfl, rfl, rfl, ?_, ?_, ?_⟩
  · norm_num [coordsSquare]
  · rw [tessSquare_triangles]
    simp only [List.all_cons, List.all_nil, triangleABC_verts,
      triangleACD_verts, Bool.and_true]
    norm_num [isPointInside, calculateBarycentricCoordinates, List.getD]
  · rw [show findContainingTriangle tessSquare (-100, -100)
        = findContainingTriangle tessSquare (-100, -100) from rfl]
    simp only [findContainingTriangle, tessSquare_initialized,
      tessSquare_manual, tessSquare_delaunay, tessSquare_triangles,
      tessSquare_documents, delSquare_find]
    decide

/-! ## C8 -/

/-- **C8** (counterexample): building from two documents yields
`initialized = false`, but the tessellation carries **no** reason string —
the source never assigns any `reason` property (diagnostics go to
`console.warn` only), so the claimed
`"insufficient_points" | "degenerate_geometry"` value does not exist. -/
theorem c8_uninitialized_carries_no_reason :
    tessTwoDocs.initialized = false ∧ tessTwoDocs.reason = none :=
  ⟨rfl, rfl⟩

/-- **C8** (amended): `buildTriangulation` never throws, and whenever fewer
than 3 valid documents with coordinates remain after filtering it returns a
tessellation with `initialized = false` and no reason string (`reason`
stays unset). -/
theorem c8_amended_uninitialized_without_reason
    (delaunayFrom : List Coord → DelaunayObj) (docs : List Doc)
    (coords : List (String × Coord))
    (h : (docs.filter fun d =>
        d.id != "" && (lookupCoord coords d.id).isSome).length < 3) :
    (buildTriangulation delaunayFrom
        (mkTessellation docs (some coords))).initialized = false
      ∧ (buildTriangulation delaunayFrom
          (mkTessellation docs (some coords))).reason = none := by
  simp only [buildTriangulation, mkTessellation]
  by_cases hlen : docs.length < 3
  · rw [if_pos hlen]
    exact ⟨rfl, rfl⟩
  · rw [if_neg hlen, if_pos h]
    exact ⟨rfl, rfl⟩

/-- **C8** witness: the amended theorem at the two-document input. -/
theorem c8_amended_witness :
    (buildTriangulation (fun _ => { points := [], triangles := [] })
        (mkTessellation [docA, docB]
          (some [("a", [0, 0]), ("b", [1, 0])]))).initialized = false
      ∧ (buildTriangulation (fun _ => { points := [], triangles := [] })
          (mkTessellation [docA, docB]
            (some [("a", [0, 0]), ("b", [1, 0])]))).reason = none :=
  c8_amended_uninitialized_without_reason _ _ _ (by decide)

/-! ## C6 -/

theorem triangleABC_val :
    triangleABC
      = { vertices := [docA, docB, docC],
          embeddings := [[1, 0], [0, 1], [1, 1]],
          id := "triangle-a-b-c" } := rfl

theorem triangleMismatch_val :
    triangleMismatch
      = { vertices := [docA, docB, docCshort],
          embeddings := [[1, 0], [0, 1], [1]],
          id := "triangle-a-b-c" } := rfl

theorem range_two : List.range 2 = [0, 1] := by decide

theorem fallbackContribution_docA (i : ℕ) (w sim : ℚ) :
    fallbackContribution i docA w sim
      = { id := "a", title := "A", weight := w, similarity := sim } := rfl

theorem fallbackContribution_docB (i : ℕ) (w sim : ℚ) :
    fallbackContribution i docB w sim
      = { id := "b", title := "B", weight := w, similarity := sim } := rfl

theorem fallbackContribution_docCshort (i : ℕ) (w sim : ℚ) :
    fallbackContribution i docCshort w sim
      = { id := "c", title := "C", weight := w, similarity := sim } := rfl

/-- **C6** (counterexample): at weights `[1, 0, 0]` on `triangleABC` the
combined embedding equals the first vertex embedding `[1, 0]`, and the
reported per-vertex similarity against the orthogonal second vertex
embedding `[0, 1]` is `1/2` — while the mathematical cosine similarity of
those two vectors is `0`.  (The square root is instantiated with a function
agreeing with `Math.sqrt` on the only value it is applied to in the
asserted components, namely `1`.) -/
theorem c6_similarity_is_not_cosine :
    calculateSimilarity id [1, 0] [0, 1] = 1/2
      ∧ cosineSimilaritySpec id [1, 0] [0, 1] = 0
      ∧ (getInteriorPointSemantics id triangleABC [1, 0, 0]).combinedEmbedding
          = [1, 0]
      ∧ ((getInteriorPointSemantics id triangleABC [1, 0, 0]).contributions.map
          (fun c => c.similarity)).getD 1 0 = 1/2 := by
  refine ⟨?_, ?_, ?_, ?_⟩
  · norm_num [calculateSimilarity, dotProduct, sumSquares]
  · norm_num [cosineSimilaritySpec, dotProduct, sumSquares]
  · rw [triangleABC_val]
    norm_num [getInteriorPointSemantics, List.foldl, range_two, List.getD]
  · rw [triangleABC_val]
    norm_num [getInteriorPointSemantics, List.enum, List.enumFrom,
      List.foldl, range_two, List.getD, calculateSimilarity,
      dotProduct, sumSquares]

/-- **C6** (amended): the per-vertex similarity the engine reports is the
cosine similarity mapped affinely into `[0, 1]` — `(cosine + 1) / 2` — not
the raw cosine; a missing/length-mismatched vector or a zero-norm vector
yields 0 (never NaN or undefined, the model being total). -/
theorem c6_amended_similarity_is_shifted_cosine :
    (∀ (sq : ℚ → ℚ) (v1 v2 : List ℚ), v1.length = v2.length →
        sumSquares v1 ≠ 0 → sumSquares v2 ≠ 0 →
        calculateSimilarity sq v1 v2
          = (cosineSimilaritySpec sq v1 v2 + 1) / 2)
      ∧ (∀ (sq : ℚ → ℚ) (v1 v2 : List ℚ),
          sumSquares v1 = 0 ∨ sumSquares v2 = 0 →
          calculateSimilarity sq v1 v2 = 0) := by
  constructor
  · intro sq v1 v2 hlen hA hB
    simp only [calculateSimilarity, cosineSimilaritySpec]
    rw [if_neg (not_ne_iff.mpr hlen), if_neg (not_or.mpr ⟨hA, hB⟩)]
  · intro sq v1 v2 h
    simp only [calculateSimilarity]
    by_cases hl : v1.length ≠ v2.length
    · rw [if_pos hl]
    · rw [if_neg hl, if_pos h]

/-- **C6** witness: the amended theorem at `[1, 0]` against `[2, 0]`
(nonzero norms) and at the zero vector `[0, 0]` against `[1, 0]`. -/
theorem c6_amended_witness :
    calculateSimilarity id [1, 0] [2, 0]
        = (cosineSimilaritySpec id [1, 0] [2, 0] + 1) / 2
      ∧ calculateSimilarity id [0, 0] [1, 0] = 0 :=
  ⟨c6_amended_similarity_is_shifted_cosine.1 id [1, 0] [2, 0] rfl
      (by norm_num [sumSquares]) (by norm_num [sumSquares]),
   c6_amended_similarity_is_shifted_cosine.2 id [0, 0] [1, 0]
      (Or.inl (by norm_num [sumSquares]))⟩

/-! ## C7 -/

/-- **C7** (counterexample): with the third vertex embedding of length 1
against a common length 2, `getInteriorPointSemantics` does not surface any
`DimensionMismatch` failure — it returns a fully shaped, normal-looking
analysis result: three contributions with normalized weights and the
placeholder similarity `0.5`, an empty combined embedding, and
`setOperation.type = "unknown"`. -/
theorem c7_mismatch_is_recovered_not_surfaced :
    getInteriorPointSemantics id triangleMismatch [1/3, 1/3, 1/3]
      = { contributions :=
            [{ id := "a", title := "A", weight := 1/3, similarity := 1/2 },
             { id := "b", title := "B", weight := 1/3, similarity := 1/2 },
             { id := "c", title := "C", weight := 1/3, similarity := 1/2 }],
          combinedEmbedding := [],
          setOperation :=
            { type := "unknown",
              description := "Could not determine semantic relationship",
              conceptual := "Analysis failed due to inconsistent embedding dimensions" } } := by
  rw [triangleMismatch_val]
  norm_num [getInteriorPointSemantics, fallbackContribution_docA,
    fallbackContribution_docB, fallbackContribution_docCshort,
    List.enum, List.enumFrom, List.foldl, List.getD]

/-- **C7** (amended): on an embedding-dimension mismatch (first embedding
length 0, or any embedding of a different length), the engine recovers
silently: it returns the fallback result with `setOperation.type =
"unknown"`, the conceptual text naming the inconsistent dimensions,
normalized weights, placeholder similarity `0.5` and empty combined
embedding — no error reaches the caller. -/
theorem c7_amended_mismatch_returns_unknown_fallback (sq : ℚ → ℚ)
    (t : SemanticTriangle) (w : List ℚ)
    (h1 : ¬(w.length ≠ 3 ∨ t.embeddings.length ≠ 3))
    (h2 : ¬(|w.foldl (· + ·) 0| < 1/10000))
    (h3 : (t.embeddings.getD 0 []).length = 0
        ∨ (t.embeddings.any fun e =>
            e.length != (t.embeddings.getD 0 []).length) = true) :
    getInteriorPointSemantics sq t w
      = { contributions :=
            t.vertices.enum.map fun p =>
              fallbackContribution p.1 p.2
                ((w.map (· / w.foldl (· + ·) 0)).getD p.1 0) (1/2),
          combinedEmbedding := [],
          setOperation :=
            { type := "unknown",
              description := "Could not determine semantic relationship",
              conceptual := "Analysis failed due to inconsistent embedding dimensions" } } := by
  simp only [getInteriorPointSemantics]
  rw [if_neg h1, if_neg h2, if_pos h3]

/-- **C7** witness: the amended theorem at the mismatched triangle with
weights `[1/3, 1/3, 1/3]`. -/
theorem c7_amended_witness :
    getInteriorPointSemantics id triangleMismatch [1/3, 1/3, 1/3]
      = { contributions :=
            triangleMismatch.vertices.enum.map fun p =>
              fallbackContribution p.1 p.2
                ((([1/3, 1/3, 1/3] : List ℚ).map
                  (· / ([1/3, 1/3, 1/3] : List ℚ).foldl (· + ·) 0)).getD p.1 0)
                (1/2),
          combinedEmbedding := [],
          setOperation :=
            { type := "unknown",
              description := "Could not determine semantic relationship",
              conceptual := "Analysis failed due to inconsistent embedding dimensions" } } :=
  c7_amended_mismatch_returns_unknown_fallback id triangleMismatch
    [1/3, 1/3, 1/3] (by decide) (by norm_num [List.foldl]) (by decide)

/-! ## C10 -/

/-- **C10** (confirmed): `analyzePoint` is total at the public interface —
for every square-root model, tessellation state (initialized or not) and
input point (present or missing), it returns either `null` or a full
`{triangle, weights, semantics, point}` record whose weight list has
exactly 3 entries; the model is a total function, matching the source
whose body is wrapped in `try/catch` with every branch returning a value. -/
theorem c10_analyzePoint_total_shape (sq : ℚ → ℚ) (self : Tessellation)
    (point : Option Pt2) :
    analyzePoint sq self point = none
      ∨ ∃ r, analyzePoint sq self point = some r ∧ r.weights.length = 3 := by
  rcases point with _ | p
  · exact Or.inl rfl
  · simp only [analyzePoint]
    split
    · exact Or.inl rfl
    · split
      · exact Or.inl rfl
      · split
        · exact Or.inl rfl
        · split
          · exact Or.inl rfl
          · rename_i hw
            exact Or.inr ⟨_, rfl, not_ne_iff.mp hw⟩

end Voronoi5
